import Mathlib

/-!
Verification development for the `iracingdataapi` client
(`src/iracingdataapi/client.py`).  The transport-layer routines of the
client are shallowly embedded as executable Lean definitions:

* a small JSON value type `JVal` models the values produced by
  `response.json()`;
* `getChunks` embeds `irDataClient._get_chunks`;
* `getResourceOrLink` embeds the classification step of
  `irDataClient._get_resource_or_link` (the decoded body is passed in,
  the HTTP transfer being abstracted away);
* `calculateBackoff` embeds `irDataClient._calculate_backoff` over `ℚ`,
  with the current time and the jitter sample as explicit parameters;
* `encodePassword` embeds `irDataClient._encode_password`, with SHA-256
  (the behaviour of `hashlib.sha256`) and base64 (`base64.b64encode`)
  implemented concretely;
* `robustGetAux` / `robustGet` embed the retry state machine of
  `irDataClient._robust_get`, with the per-attempt network outcomes given
  by a script `Nat → NetResp` and the observable side effects recorded as
  an event trace;
* `parseCsvResponse` embeds `irDataClient._parse_csv_response` for
  unquoted comma-separated input (the `csv.reader` quoting machinery is
  not exercised by the properties below).

Python exceptions are modelled by `Except PyErr`.
-/

/-- Python exceptions that the embedded routines can raise. -/
inductive PyErr where
  | typeError
  | attributeError
  | stopIteration
deriving DecidableEq, Repr

/-- JSON values as returned by `response.json()` in the client. -/
inductive JVal where
  | null
  | bool (b : Bool)
  | num (n : Int)
  | str (s : String)
  | arr (xs : List JVal)
  | obj (fields : List (String × JVal))
deriving Repr

/-- Whether a Python dict (modelled as a key/value list with distinct keys)
has the given key: `k in d`. -/
def hasKey (fields : List (String × JVal)) (k : String) : Bool :=
  fields.any (fun p => p.1 == k)

/-- Python `d.get(k)`: the value stored at `k`, or `None` when absent. -/
def dictGet (fields : List (String × JVal)) (k : String) : JVal :=
  match fields.find? (fun p => p.1 == k) with
  | some p => p.2
  | none => JVal.null

/-- Python iteration `for x in v`: lists yield their elements, dicts their
keys, strings their characters; other values raise `TypeError`. -/
def pyIter : JVal → Except PyErr (List JVal)
  | JVal.arr xs => Except.ok xs
  | JVal.obj fields => Except.ok (fields.map (fun p => JVal.str p.1))
  | JVal.str s => Except.ok (s.data.map (fun c => JVal.str (String.mk [c])))
  | _ => Except.error PyErr.typeError

/-- Python `a + b` on JSON values: string and list concatenation and
integer addition are defined, every other combination raises `TypeError`
(in particular `None + "x"`). -/
def pyAdd : JVal → JVal → Except PyErr JVal
  | JVal.str a, JVal.str b => Except.ok (JVal.str (a ++ b))
  | JVal.arr a, JVal.arr b => Except.ok (JVal.arr (a ++ b))
  | JVal.num a, JVal.num b => Except.ok (JVal.num (a + b))
  | _, _ => Except.error PyErr.typeError

/-- A Python list comprehension over a fallible body: evaluates the body
left to right and propagates the first exception. -/
def exceptMap (f : α → Except PyErr β) : List α → Except PyErr (List β)
  | [] => Except.ok []
  | x :: t =>
    match f x with
    | Except.error e => Except.error e
    | Except.ok y =>
      match exceptMap f t with
      | Except.error e => Except.error e
      | Except.ok ys => Except.ok (y :: ys)

/-- Embedding of `irDataClient._get_chunks`.  The network is abstracted by
`fetch`, mapping a chunk URL to the JSON value `session.get(url).json()`
decodes to.  Following the source: a non-dict input returns `[]`;
otherwise the chunk URLs are built as `base_download_url + name` for each
name in `chunk_file_names` (raising `TypeError` when either key is absent
in a way Python would), each URL is fetched, and the decoded chunks are
flattened in order. -/
def getChunks (fetch : JVal → JVal) (chunks : JVal) : Except PyErr (List JVal) :=
  match chunks with
  | JVal.obj fields =>
    let baseUrl := dictGet fields "base_download_url"
    match pyIter (dictGet fields "chunk_file_names") with
    | Except.error e => Except.error e
    | Except.ok names =>
      match exceptMap (fun x => pyAdd baseUrl x) names with
      | Except.error e => Except.error e
      | Except.ok urls =>
        match exceptMap pyIter (urls.map fetch) with
        | Except.error e => Except.error e
        | Except.ok chunkLists => Except.ok chunkLists.flatten
  | _ => Except.ok []

/-- Whether the first list is an initial segment of the second. -/
def leadsList : List Char → List Char → Bool
  | [], _ => true
  | _ :: _, [] => false
  | a :: as, b :: bs => a == b && leadsList as bs

/-- Python substring membership `needle in hay` on strings, over the
character lists. -/
def hasSubList (needle : List Char) : List Char → Bool
  | [] => needle.isEmpty
  | c :: t => leadsList needle (c :: t) || hasSubList needle t

/-- Embedding of the classification in `irDataClient._get_resource_or_link`
applied to the decoded body `data`: `if not isinstance(data, list) and
"link" in data: return data.get("link"), True` else `return data, False`.
For a string body, `"link" in data` is a substring test and a positive
test then hits `data.get` which strings lack (`AttributeError`); for
`None`, numbers and booleans the membership test itself raises
`TypeError`. -/
def getResourceOrLink (data : JVal) : Except PyErr (JVal × Bool) :=
  match data with
  | JVal.arr xs => Except.ok (JVal.arr xs, false)
  | JVal.obj fields =>
    if hasKey fields "link" then Except.ok (dictGet fields "link", true)
    else Except.ok (JVal.obj fields, false)
  | JVal.str s =>
    if hasSubList "link".data s.data then Except.error PyErr.attributeError
    else Except.ok (JVal.str s, false)
  | _ => Except.error PyErr.typeError

/-- Embedding of `irDataClient._calculate_backoff` over `ℚ`.  The wall
clock reading `datetime.now()` and the jitter sample
`random.uniform(0, 1)` are explicit parameters `now` and `u`.  A present
rate-limit reset header gives `max((reset - now) + 0.5, 1.0)`; otherwise
the fallback is `min(2 ** attempt + u, 60)`. -/
def calculateBackoff (attempt : Nat) (ratelimitReset : Option Int) (now u : ℚ) : ℚ :=
  match ratelimitReset with
  | some reset => max ((reset : ℚ) - now + 1 / 2) 1
  | none => min (2 ^ attempt + u) 60

/-- Outcome of one `session.get` call inside `_robust_get`: an HTTP status
code, or a `requests.Timeout` / `requests.ConnectionError`. -/
inductive NetResp where
  | status (code : Nat)
  | netErr
deriving DecidableEq, Repr

/-- Observable side effects of `_robust_get`, in the order they occur. -/
inductive RGEvent where
  | sentGet (attempt : Nat)
  | setUnauthenticated
  | loginCall
  | sleepBackoff
deriving DecidableEq, Repr

/-- Terminal outcome of `_robust_get`: a 200 response at some attempt
index, or one of its `RuntimeError` exits, or a login failure propagated
out of `_login`. -/
inductive RGResult where
  | ok (attempt : Nat)
  | errRepeated401
  | err403
  | errNon200 (code : Nat)
  | errExhausted
  | errLoginFailed
deriving DecidableEq, Repr

/-- The mutable state `_robust_get` touches: the shared
`self.authenticated` flag and the call-local `attempted_relogin` flag. -/
structure RGState where
  authenticated : Bool
  attemptedRelogin : Bool
deriving DecidableEq, Repr

/-- Prepends an event to the trace of a run outcome. -/
def consEv (e : RGEvent) (r : RGResult × RGState × List RGEvent) :
    RGResult × RGState × List RGEvent :=
  (r.1, r.2.1, e :: r.2.2)

/-- The retry loop of `irDataClient._robust_get` (`for attempt in
range(retries)`).  `resp attempt` is the outcome of the GET issued on
iteration `attempt`, `loginOk` says whether `self._login()` succeeds,
`fuel` is the number of loop iterations left.  Each branch follows the
source: first 401 in the call sets the call-local flag, clears
`self.authenticated`, re-logs in and continues; a later 401 raises; 403
raises; 429 sleeps and continues; any other non-200 raises; 200 returns;
timeouts and connection errors sleep and continue; running out of
iterations raises `Exceeded retry attempts`. -/
def robustGetAux (resp : Nat → NetResp) (loginOk : Bool) :
    Nat → Nat → RGState → RGResult × RGState × List RGEvent
  | 0, _, st => (RGResult.errExhausted, st, [])
  | fuel + 1, attempt, st =>
    match resp attempt with
    | NetResp.netErr =>
      consEv (RGEvent.sentGet attempt) (consEv RGEvent.sleepBackoff
        (robustGetAux resp loginOk fuel (attempt + 1) st))
    | NetResp.status code =>
      if code = 401 then
        if st.attemptedRelogin then
          (RGResult.errRepeated401, st, [RGEvent.sentGet attempt])
        else
          if loginOk then
            consEv (RGEvent.sentGet attempt) (consEv RGEvent.setUnauthenticated
              (consEv RGEvent.loginCall
                (robustGetAux resp loginOk fuel (attempt + 1)
                  { authenticated := true, attemptedRelogin := true })))
          else
            (RGResult.errLoginFailed,
              { authenticated := false, attemptedRelogin := true },
              [RGEvent.sentGet attempt, RGEvent.setUnauthenticated, RGEvent.loginCall])
      else if code = 403 then
        (RGResult.err403, st, [RGEvent.sentGet attempt])
      else if code = 429 then
        consEv (RGEvent.sentGet attempt) (consEv RGEvent.sleepBackoff
          (robustGetAux resp loginOk fuel (attempt + 1) st))
      else if code ≠ 200 then
        (RGResult.errNon200 code, st, [RGEvent.sentGet attempt])
      else
        (RGResult.ok attempt, st, [RGEvent.sentGet attempt])

/-- Embedding of `irDataClient._robust_get`: after the optional up-front
login (`if require_auth and not self.authenticated: self._login()`), the
retry loop starts at attempt 0 with a freshly cleared `attempted_relogin`
flag. -/
def robustGet (resp : Nat → NetResp) (loginOk : Bool) (retries : Nat)
    (requireAuth auth0 : Bool) : RGResult × RGState × List RGEvent :=
  if requireAuth && !auth0 then
    if loginOk then
      consEv RGEvent.loginCall
        (robustGetAux resp loginOk retries 0
          { authenticated := true, attemptedRelogin := false })
    else
      (RGResult.errLoginFailed,
        { authenticated := false, attemptedRelogin := false },
        [RGEvent.loginCall])
  else
    robustGetAux resp loginOk retries 0
      { authenticated := auth0, attemptedRelogin := false }

/-- Python `str.lower()` on one character (ASCII range, which covers the
headers and usernames the client handles). -/
def pyLowerChar (c : Char) : Char :=
  if 'A' ≤ c && c ≤ 'Z' then Char.ofNat (c.toNat + 32) else c

/-- Python `str.lower()`. -/
def pyLower (s : String) : String :=
  String.mk (s.data.map pyLowerChar)

/-- Splits a character list on a separator; `n` separators give `n + 1`
segments. -/
def splitSep (sep : Char) : List Char → List (List Char)
  | [] => [[]]
  | c :: rest =>
    let r := splitSep sep rest
    if c = sep then [] :: r
    else
      match r with
      | [] => [[c]]
      | h :: t => (c :: h) :: t

/-- The lines `StringIO(text)` yields: segments between newlines, without
the empty segment a trailing newline (or empty input) would leave. -/
def stringLines (text : String) : List String :=
  let parts := (splitSep '\n' text.data).map String.mk
  match parts.getLast? with
  | some "" => parts.dropLast
  | _ => parts

/-- The rows `csv.reader(StringIO(text), delimiter=",")` yields for
unquoted input: one row per line, split on commas, a blank line giving the
empty row. -/
def csvRows (text : String) : List (List String) :=
  (stringLines text).map (fun line =>
    if line = "" then [] else (splitSep ',' line.data).map String.mk)

/-- Embedding of `irDataClient._parse_csv_response`: the first row
(`next(reader)`, raising `StopIteration` when there is none) is lowercased
into the header names; every later row whose length matches the header's
becomes the key/value pairs `dict(zip(headers, row))` (kept here as the
zipped association list), and every other row is skipped. -/
def parseCsvResponse (text : String) :
    Except PyErr (List (List (String × String))) :=
  match csvRows text with
  | [] => Except.error PyErr.stopIteration
  | headerRow :: rest =>
    let headers := headerRow.map pyLower
    Except.ok (rest.filterMap (fun row =>
      if row.length = headers.length then some (headers.zip row) else none))

/-- UTF-8 encoding of one character, as `str.encode("utf-8")` produces. -/
def utf8Char (c : Char) : List Nat :=
  let n := c.toNat
  if n < 128 then [n]
  else if n < 2048 then
    [192 + n / 64, 128 + n % 64]
  else if n < 65536 then
    [224 + n / 4096, 128 + n / 64 % 64, 128 + n % 64]
  else
    [240 + n / 262144, 128 + n / 4096 % 64, 128 + n / 64 % 64, 128 + n % 64]

/-- Python `s.encode("utf-8")` as a byte list. -/
def utf8Encode (s : String) : List Nat :=
  (s.data.map utf8Char).flatten

/-- Truncation to a 32-bit word. -/
def w32 (n : Nat) : Nat := n % 4294967296

/-- Rotates a 32-bit word right by `k` bit positions. -/
def rotr (k x : Nat) : Nat := w32 ((x >>> k) ||| (x <<< (32 - k)))

/-- Bitwise complement of a 32-bit word. -/
def notW (x : Nat) : Nat := 4294967295 - w32 x

/-- SHA-256 big sigma-0. -/
def bSig0 (x : Nat) : Nat := rotr 2 x ^^^ rotr 13 x ^^^ rotr 22 x

/-- SHA-256 big sigma-1. -/
def bSig1 (x : Nat) : Nat := rotr 6 x ^^^ rotr 11 x ^^^ rotr 25 x

/-- SHA-256 small sigma-0. -/
def sSig0 (x : Nat) : Nat := rotr 7 x ^^^ rotr 18 x ^^^ (x >>> 3)

/-- SHA-256 small sigma-1. -/
def sSig1 (x : Nat) : Nat := rotr 17 x ^^^ rotr 19 x ^^^ (x >>> 10)

/-- SHA-256 choice function. -/
def chF (x y z : Nat) : Nat := (x &&& y) ^^^ (notW x &&& z)

/-- SHA-256 majority function. -/
def majF (x y z : Nat) : Nat := (x &&& y) ^^^ (x &&& z) ^^^ (y &&& z)

/-- The SHA-256 round constants, written in decimal. -/
def shaK : List Nat :=
  [1116352408, 1899447441, 3049323471, 3921009573, 961987163,
   1508970993, 2453635748, 2870763221, 3624381080, 310598401,
   607225278, 1426881987, 1925078388, 2162078206, 2614888103,
   3248222580, 3835390401, 4022224774, 264347078, 604807628,
   770255983, 1249150122, 1555081692, 1996064986, 2554220882,
   2821834349, 2952996808, 3210313671, 3336571891, 3584528711,
   113926993, 338241895, 666307205, 773529912, 1294757372,
   1396182291, 1695183700, 1986661051, 2177026350, 2456956037,
   2730485921, 2820302411, 3259730800, 3345764771, 3516065817,
   3600352804, 4094571909, 275423344, 430227734, 506948616,
   659060556, 883997877, 958139571, 1322822218, 1537002063,
   1747873779, 1955562222, 2024104815, 2227730452, 2361852424,
   2428436474, 2756734187, 3204031479, 3329325298]

/-- The SHA-256 initial hash value, written in decimal. -/
def shaH0 : List Nat :=
  [1779033703, 3144134277, 1013904242, 2773480762,
   1359893119, 2600822924, 528734635, 1541459225]

/-- Big-endian bytes of a 64-bit value. -/
def be64 (n : Nat) : List Nat :=
  [n >>> 56 % 256, n >>> 48 % 256, n >>> 40 % 256, n >>> 32 % 256,
   n >>> 24 % 256, n >>> 16 % 256, n >>> 8 % 256, n % 256]

/-- Big-endian bytes of a 32-bit word. -/
def be32 (n : Nat) : List Nat :=
  [n >>> 24 % 256, n >>> 16 % 256, n >>> 8 % 256, n % 256]

/-- SHA-256 message padding: a `0x80` byte, zeros to 56 mod 64, then the
bit length in 8 big-endian bytes. -/
def shaPad (m : List Nat) : List Nat :=
  let z := (119 - m.length % 64) % 64
  m ++ [128] ++ List.replicate z 0 ++ be64 (m.length * 8)

/-- Splits a byte list into 64-byte blocks; the fuel bounds the number of
blocks and is instantiated with the list length. -/
def blocks64Go : Nat → List Nat → List (List Nat)
  | 0, _ => []
  | _, [] => []
  | fuel + 1, a :: rest =>
    ((a :: rest).take 64) :: blocks64Go fuel ((a :: rest).drop 64)

/-- Splits a byte list into 64-byte blocks. -/
def blocks64 (l : List Nat) : List (List Nat) := blocks64Go l.length l

/-- Packs bytes into big-endian 32-bit words. -/
def packWords : List Nat → List Nat
  | a :: b :: c :: d :: rest => (((a * 256 + b) * 256 + c) * 256 + d) :: packWords rest
  | _ => []

/-- Extends the 16-word block schedule by `k` further words. -/
def extendW : Nat → List Nat → List Nat
  | 0, w => w
  | k + 1, w =>
    let n := w.length
    extendW k (w ++ [w32 (sSig1 (w.getD (n - 2) 0) + w.getD (n - 7) 0 +
      sSig0 (w.getD (n - 15) 0) + w.getD (n - 16) 0)])

/-- One SHA-256 compression round on the eight-word working state. -/
def shaRound (st : List Nat) (ki wi : Nat) : List Nat :=
  match st with
  | [a, b, c, d, e, f, g, h] =>
    let t1 := w32 (h + bSig1 e + chF e f g + ki + wi)
    let t2 := w32 (bSig0 a + majF a b c)
    [w32 (t1 + t2), a, b, c, w32 (d + t1), e, f, g]
  | other => other

/-- Processes one 64-byte block into the running hash. -/
def shaBlock (h : List Nat) (block : List Nat) : List Nat :=
  let w := extendW 48 (packWords block)
  let st := (shaK.zip w).foldl (fun st p => shaRound st p.1 p.2) h
  (h.zip st).map (fun p => w32 (p.1 + p.2))

/-- SHA-256 of a byte list, as `hashlib.sha256(data).digest()` computes. -/
def sha256 (msg : List Nat) : List Nat :=
  (((blocks64 (shaPad msg)).foldl shaBlock shaH0).map be32).flatten

/-- The standard base64 alphabet. -/
def b64Alphabet : List Char :=
  "ABCDEFGHIJKLMNOPQRSTUVWXYZabcdefghijklmnopqrstuvwxyz0123456789+/".data

/-- The base64 character for a 6-bit group. -/
def b64Digit (i : Nat) : Char := b64Alphabet.getD i 'A'

/-- Base64 text encoding of a byte list, as
`base64.b64encode(data).decode("utf-8")` computes. -/
def b64Encode : List Nat → List Char
  | a :: b :: c :: rest =>
    let n := (a * 256 + b) * 256 + c
    b64Digit (n / 262144) :: b64Digit (n / 4096 % 64) ::
      b64Digit (n / 64 % 64) :: b64Digit (n % 64) :: b64Encode rest
  | [a, b] =>
    let n := (a * 256 + b) * 4
    [b64Digit (n / 4096), b64Digit (n / 64 % 64), b64Digit (n % 64), '=']
  | [a] =>
    let n := a * 16
    [b64Digit (n / 64), b64Digit (n % 64), '=', '=']
  | [] => []

/-- Embedding of `irDataClient._encode_password`: the SHA-256 digest of
the UTF-8 bytes of `password + username.lower()`, encoded as base64
text. -/
def encodePassword (username password : String) : String :=
  String.mk (b64Encode (sha256 (utf8Encode (password ++ pyLower username))))

/-- Chunk fetcher for the worked manifest example: `a.json` decodes to
`[1, 2]` and `b.json` to `[3]`. -/
def fetchChunksEx : JVal → List JVal
  | JVal.str s =>
    if s = "http://x/a.json" then [JVal.num 1, JVal.num 2]
    else if s = "http://x/b.json" then [JVal.num 3]
    else []
  | _ => []

/-- A server that answers 403 on every attempt. -/
def resp403 : Nat → NetResp := fun _ => NetResp.status 403

/-- A server that answers 401 on the first attempt and 200 afterwards. -/
def resp401then200 : Nat → NetResp :=
  fun n => if n = 0 then NetResp.status 401 else NetResp.status 200

/-- A dict with no entry for `k` stores nothing at `k`: `d.get(k)` is
`None`. -/
theorem hasKey_false_dictGet (fields : List (String × JVal)) (k : String)
    (h : hasKey fields k = false) : dictGet fields k = JVal.null := by
  have hf : fields.find? (fun p => p.1 == k) = none :=
    List.find?_eq_none.mpr (fun x hx => by
      simp only [hasKey, List.any_eq_false] at h
      simpa using h x hx)
  simp [dictGet, hf]

/-- Building the chunk URLs succeeds and is in order when the base URL and
all the file names are strings. -/
theorem exceptMap_pyAdd_str (b : String) (names : List String) :
    exceptMap (fun x => pyAdd (JVal.str b) x) (names.map JVal.str)
      = Except.ok (names.map (fun s => JVal.str (b ++ s))) := by
  induction names with
  | nil => rfl
  | cons s t ih =>
    have hadd : pyAdd (JVal.str b) (JVal.str s) = Except.ok (JVal.str (b ++ s)) := rfl
    simp only [List.map_cons, exceptMap, hadd, ih]

/-- Iterating fetched chunks succeeds and is in order when every chunk
decodes to a list. -/
theorem exceptMap_pyIter_arr {α : Type} (f : α → List JVal) (urls : List α) :
    exceptMap pyIter (urls.map (fun u => JVal.arr (f u)))
      = Except.ok (urls.map f) := by
  induction urls with
  | nil => rfl
  | cons u t ih =>
    have hit : pyIter (JVal.arr (f u)) = Except.ok (f u) := rfl
    simp only [List.map_cons, exceptMap, hit, ih]

/-- The embedded SHA-256 reproduces the FIPS 180 test vector for
`"abc"`. -/
theorem sha256_abc_vector :
    sha256 (utf8Encode "abc")
      = [0xba, 0x78, 0x16, 0xbf, 0x8f, 0x01, 0xcf, 0xea, 0x41, 0x41, 0x40, 0xde,
         0x5d, 0xae, 0x22, 0x23, 0xb0, 0x03, 0x61, 0xa3, 0x96, 0x17, 0x7a, 0x9c,
         0xb4, 0x10, 0xff, 0x61, 0xf2, 0x00, 0x15, 0xad] := by decide

/-- C1: in `_robust_get`, the first 401 seen in a call (re-login flag
clear) resets the session to unauthenticated, invokes `_login`, and
retries; a second 401 after that re-login (flag set) fails immediately
with the repeated-401 `RuntimeError`; and the single-use re-login flag is
call-scoped — `robustGet` enters its loop with the flag clear, so a fresh
call facing 401-then-200 succeeds while 401-twice in one call fails. -/
theorem robust_get_first_401_relogin_second_401_fails
    (resp : Nat → NetResp) (fuel attempt : Nat) (st : RGState) :
    (st.attemptedRelogin = false → resp attempt = NetResp.status 401 →
      robustGetAux resp true (fuel + 1) attempt st
        = consEv (RGEvent.sentGet attempt) (consEv RGEvent.setUnauthenticated
            (consEv RGEvent.loginCall
              (robustGetAux resp true fuel (attempt + 1)
                { authenticated := true, attemptedRelogin := true })))) ∧
    (st.attemptedRelogin = true → resp attempt = NetResp.status 401 →
      robustGetAux resp true (fuel + 1) attempt st
        = (RGResult.errRepeated401, st, [RGEvent.sentGet attempt])) ∧
    (resp 0 = NetResp.status 401 → resp 1 = NetResp.status 200 →
      (robustGet resp true 3 true true).1 = RGResult.ok 1) ∧
    (resp 0 = NetResp.status 401 → resp 1 = NetResp.status 401 →
      (robustGet resp true 3 true true).1 = RGResult.errRepeated401) := by
  refine ⟨?_, ?_, ?_, ?_⟩
  · intro hflag hresp
    simp [robustGetAux, hresp, hflag]
  · intro hflag hresp
    simp [robustGetAux, hresp, hflag]
  · intro h0 h1
    simp [robustGet, robustGetAux, h0, h1, consEv]
  · intro h0 h1
    simp [robustGet, robustGetAux, h0, h1, consEv]

/-- Witness for C1: against a server answering 401 then 200, a fresh call
with three retries succeeds at attempt 1. -/
theorem robust_get_first_401_relogin_second_401_fails_witness :
    (robustGet resp401then200 true 3 true true).1 = RGResult.ok 1 :=
  (robust_get_first_401_relogin_second_401_fails resp401then200 0 0
    { authenticated := true, attemptedRelogin := false }).2.2.1 rfl rfl

/-- C2: for a well-formed chunk manifest — a mapping whose
`base_download_url` is a string and whose `chunk_file_names` is a list of
strings — with every chunk decoding to a list, `_get_chunks` returns the
concatenation of the decoded chunk contents in exact manifest order,
preserving each chunk's internal order. -/
theorem get_chunks_manifest_order (fetchArr : JVal → List JVal) (b : String)
    (names : List String) (fields : List (String × JVal))
    (h1 : dictGet fields "base_download_url" = JVal.str b)
    (h2 : dictGet fields "chunk_file_names" = JVal.arr (names.map JVal.str)) :
    getChunks (fun u => JVal.arr (fetchArr u)) (JVal.obj fields)
      = Except.ok ((names.map (fun s => fetchArr (JVal.str (b ++ s)))).flatten) := by
  simp [getChunks, h1, h2, pyIter, exceptMap_pyAdd_str, List.map_map,
    Function.comp_def, exceptMap_pyIter_arr]

/-- Witness for C2: the manifest `{base_download_url: "http://x/",
chunk_file_names: ["a.json", "b.json"]}` with `a.json` decoding to
`[1, 2]` and `b.json` to `[3]` aggregates to `[1, 2, 3]`. -/
theorem get_chunks_manifest_order_witness :
    getChunks (fun u => JVal.arr (fetchChunksEx u))
      (JVal.obj [("base_download_url", JVal.str "http://x/"),
                 ("chunk_file_names", JVal.arr [JVal.str "a.json", JVal.str "b.json"])])
      = Except.ok [JVal.num 1, JVal.num 2, JVal.num 3] := by
  have h := get_chunks_manifest_order fetchChunksEx "http://x/" ["a.json", "b.json"]
    [("base_download_url", JVal.str "http://x/"),
     ("chunk_file_names", JVal.arr [JVal.str "a.json", JVal.str "b.json"])]
    rfl rfl
  exact h.trans rfl

/-- C3 counterexample: the claim says every mapping lacking the chunk
file name list still aggregates to the empty sequence without raising,
but on the empty mapping `_get_chunks` iterates over
`chunks.get("chunk_file_names")`, which is `None`, and raises
`TypeError` instead of returning `[]`. -/
theorem get_chunks_missing_keys_cex :
    getChunks (fun _ => JVal.arr []) (JVal.obj []) = Except.error PyErr.typeError ∧
    getChunks (fun _ => JVal.arr []) (JVal.obj []) ≠ Except.ok [] :=
  ⟨rfl, fun h => Except.noConfusion h⟩

/-- C3 amended: a non-mapping input (including `None`) makes `_get_chunks`
return the empty sequence without raising, but a mapping lacking the chunk
file name list raises `TypeError`. -/
theorem get_chunks_nonmapping_empty (fetch : JVal → JVal) (chunks : JVal)
    (hno : ∀ fields, chunks ≠ JVal.obj fields)
    (fields : List (String × JVal))
    (hmiss : hasKey fields "chunk_file_names" = false) :
    getChunks fetch chunks = Except.ok [] ∧
    getChunks fetch (JVal.obj fields) = Except.error PyErr.typeError := by
  constructor
  · cases chunks with
    | obj f => exact absurd rfl (hno f)
    | null => rfl
    | bool b => rfl
    | num n => rfl
    | str s => rfl
    | arr xs => rfl
  · have hn : dictGet fields "chunk_file_names" = JVal.null :=
      hasKey_false_dictGet fields "chunk_file_names" hmiss
    simp [getChunks, hn, pyIter]

/-- Witness for C3 (amended): `None` aggregates to `[]`, while the empty
mapping raises `TypeError`. -/
theorem get_chunks_nonmapping_empty_witness :
    getChunks (fun _ => JVal.arr []) JVal.null = Except.ok [] ∧
    getChunks (fun _ => JVal.arr []) (JVal.obj []) = Except.error PyErr.typeError :=
  get_chunks_nonmapping_empty (fun _ => JVal.arr []) JVal.null
    (fun _ h => JVal.noConfusion h) [] rfl

/-- C4 counterexample: the claim covers every decoded response body, but
on the body `null` (not a sequence, no "link" field — so the claim says
`Inline`) the membership test `"link" in data` raises `TypeError`, so
`_get_resource_or_link` raises instead of classifying. -/
theorem get_resource_or_link_null_cex :
    getResourceOrLink JVal.null = Except.error PyErr.typeError ∧
    getResourceOrLink JVal.null ≠ Except.ok (JVal.null, false) :=
  ⟨rfl, fun h => Except.noConfusion h⟩

/-- C4 amended: for every decoded body that is a mapping or a sequence,
the classification is `Link` exactly when the body is a mapping containing
a "link" field (returning that field's value with the link flag set) and
`Inline` otherwise; in particular `{"link": "https://x"}` classifies as
`Link("https://x")` and the sequence `[{"a": 1}]` as `Inline`.  Bodies
that are neither raise instead of classifying. -/
theorem get_resource_or_link_classifies (xs : List JVal)
    (fields : List (String × JVal)) :
    getResourceOrLink (JVal.arr xs) = Except.ok (JVal.arr xs, false) ∧
    (hasKey fields "link" = true →
      getResourceOrLink (JVal.obj fields)
        = Except.ok (dictGet fields "link", true)) ∧
    (hasKey fields "link" = false →
      getResourceOrLink (JVal.obj fields)
        = Except.ok (JVal.obj fields, false)) ∧
    getResourceOrLink (JVal.obj [("link", JVal.str "https://x")])
      = Except.ok (JVal.str "https://x", true) ∧
    getResourceOrLink (JVal.arr [JVal.obj [("a", JVal.num 1)]])
      = Except.ok (JVal.arr [JVal.obj [("a", JVal.num 1)]], false) := by
  refine ⟨rfl, ?_, ?_, rfl, rfl⟩ <;> intro h <;> simp [getResourceOrLink, h]

/-- Witness for C4 (amended): the body `{"link": "u"}` classifies as a
link to `"u"`. -/
theorem get_resource_or_link_classifies_witness :
    getResourceOrLink (JVal.obj [("link", JVal.str "u")])
      = Except.ok (JVal.str "u", true) :=
  (get_resource_or_link_classifies [] [("link", JVal.str "u")]).2.1 rfl

/-- C5: with a reset hint, `_calculate_backoff` returns
`max(1.0, (reset - now) + 0.5)`; without one it returns
`min(2 ** attempt + u, 60)` for a jitter sample `u ∈ [0, 1]`, which lies
in the interval `[2 ^ attempt, 2 ^ attempt + 1]` capped at 60; in both
paths the result is at least 1. -/
theorem calculate_backoff_spec (attempt : Nat) (reset : Int) (now u : ℚ)
    (h0 : 0 ≤ u) (h1 : u ≤ 1) :
    calculateBackoff attempt (some reset) now u
      = max 1 ((reset : ℚ) - now + 1 / 2) ∧
    min (2 ^ attempt) 60 ≤ calculateBackoff attempt none now u ∧
    calculateBackoff attempt none now u ≤ min (2 ^ attempt + 1) 60 ∧
    calculateBackoff attempt none now u ≤ 60 ∧
    1 ≤ calculateBackoff attempt (some reset) now u ∧
    1 ≤ calculateBackoff attempt none now u := by
  have hp : (1 : ℚ) ≤ 2 ^ attempt := by
    calc (1 : ℚ) = 1 ^ attempt := (one_pow attempt).symm
    _ ≤ 2 ^ attempt := by
      apply pow_le_pow_left₀ <;> norm_num
  refine ⟨?_, ?_, ?_, ?_, ?_, ?_⟩ <;> simp only [calculateBackoff]
  · exact max_comm _ _
  · exact min_le_min (le_add_of_nonneg_right h0) le_rfl
  · exact min_le_min (by linarith) le_rfl
  · exact min_le_right _ _
  · exact le_max_right _ _
  · exact le_min (by linarith) (by norm_num)

/-- Witness for C5: at attempt 0 with reset hint 5, jitter 0 and clock 0,
the reset path returns `max(1, 5.5)` and the fallback path is bounded as
stated. -/
theorem calculate_backoff_spec_witness :
    calculateBackoff 0 (some 5) 0 0 = max 1 ((5 : ℚ) - 0 + 1 / 2) :=
  (calculate_backoff_spec 0 5 0 0 le_rfl (by norm_num)).1

/-- C6: in `_robust_get`, a 403 fails immediately with the forbidden
`RuntimeError` — the trace of the iteration is the single GET, with no
sleep and no further attempt — and any other non-200 status outside
`{401, 429}` likewise fails immediately without retrying; a 403 on the
first attempt of a call fails with zero additional attempts consumed. -/
theorem robust_get_403_and_other_non200_fatal
    (resp : Nat → NetResp) (loginOk : Bool) (fuel attempt : Nat)
    (st : RGState) (code : Nat) :
    (resp attempt = NetResp.status 403 →
      robustGetAux resp loginOk (fuel + 1) attempt st
        = (RGResult.err403, st, [RGEvent.sentGet attempt])) ∧
    (resp attempt = NetResp.status code → code ≠ 200 → code ≠ 401 →
      code ≠ 403 → code ≠ 429 →
      robustGetAux resp loginOk (fuel + 1) attempt st
        = (RGResult.errNon200 code, st, [RGEvent.sentGet attempt])) ∧
    (resp 0 = NetResp.status 403 →
      robustGet resp loginOk 3 true true
        = (RGResult.err403, { authenticated := true, attemptedRelogin := false },
           [RGEvent.sentGet 0])) := by
  refine ⟨?_, ?_, ?_⟩
  · intro h
    simp [robustGetAux, h]
  · intro h h200 h401 h403 h429
    simp [robustGetAux, h, h200, h401, h403, h429]
  · intro h
    simp [robustGet, robustGetAux, h]

/-- Witness for C6: a server answering 403 makes a fresh three-retry call
fail at once with only the one GET in its trace. -/
theorem robust_get_403_and_other_non200_fatal_witness :
    robustGet resp403 true 3 true true
      = (RGResult.err403, { authenticated := true, attemptedRelogin := false },
         [RGEvent.sentGet 0]) :=
  (robust_get_403_and_other_non200_fatal resp403 true 0 0
    { authenticated := true, attemptedRelogin := false } 0).2.2 rfl

/-- C7: `_encode_password` returns exactly the base64 text encoding of the
SHA-256 hash of the UTF-8 bytes of the plaintext password concatenated
with the lowercased username, and identical inputs always yield identical
output (the embedding is a pure function of the two strings). -/
theorem encode_password_spec (username password : String) :
    encodePassword username password
      = String.mk (b64Encode (sha256 (utf8Encode (password ++ pyLower username)))) ∧
    encodePassword username password = encodePassword username password :=
  ⟨rfl, rfl⟩

/-- C8 counterexample: changing only the case of the username does not
change the output — the username is lowercased before hashing, so
`encode("A", "p") = encode("a", "p")` although `"A" ≠ "a"`. -/
theorem encode_password_case_cex :
    encodePassword "A" "p" = encodePassword "a" "p" ∧ ("A" : String) ≠ "a" := by
  constructor
  · have h : pyLower "A" = pyLower "a" := by decide
    unfold encodePassword
    rw [h]
  · decide

/-- C8 amended: usernames with the same lowercasing — in particular ones
differing only in letter case — yield identical encoder output for the
same password. -/
theorem encode_password_case_insensitive (u1 u2 p : String)
    (h : pyLower u1 = pyLower u2) :
    encodePassword u1 p = encodePassword u2 p := by
  unfold encodePassword
  rw [h]

/-- Witness for C8 (amended): `"A"` and `"a"` encode identically. -/
theorem encode_password_case_insensitive_witness :
    encodePassword "A" "p" = encodePassword "a" "p" :=
  encode_password_case_insensitive "A" "a" "p" (by decide)

/-- C9: `_parse_csv_response` lowercases the header row into the field
names, turns each later row whose column count equals the header's into
the header-to-cell pairs with the cell text unchanged, and skips every
mismatched row while continuing with the rest. -/
theorem parse_csv_response_rows (text : String) (headerRow : List String)
    (rest : List (List String)) (hrows : csvRows text = headerRow :: rest) :
    parseCsvResponse text
      = Except.ok (rest.filterMap (fun row =>
          if row.length = (headerRow.map pyLower).length
          then some ((headerRow.map pyLower).zip row) else none)) := by
  unfold parseCsvResponse
  rw [hrows]

/-- Witness for C9: `"id,name\n1,Alice\n2,Bob\n3"` decodes to the two
matching rows, the short row `"3"` being skipped without aborting. -/
theorem parse_csv_response_rows_witness :
    parseCsvResponse "id,name\n1,Alice\n2,Bob\n3"
      = Except.ok [[("id", "1"), ("name", "Alice")],
                   [("id", "2"), ("name", "Bob")]] := by
  have h := parse_csv_response_rows "id,name\n1,Alice\n2,Bob\n3" ["id", "name"]
    [["1", "Alice"], ["2", "Bob"], ["3"]] (by decide)
  exact h.trans rfl

/-- C10: on empty input there is no header row, so reading it raises
(`next(reader)` raises `StopIteration`) rather than returning the empty
list, while a header-only input returns the empty list. -/
theorem parse_csv_response_empty_input :
    parseCsvResponse "" = Except.error PyErr.stopIteration ∧
    parseCsvResponse "id,name" = Except.ok [] :=
  ⟨rfl, rfl⟩
